import Mathlib

/-!
Verification of the langsmith-mcp-server tool modules
(`services/tools/datasets.py`, `services/tools/traces.py`).

The Python tool functions are shallowly embedded: Python dictionaries become
association lists `List (String × PyVal)` (insertion order preserved, as in
Python), remote-client calls become explicit `Except String`-valued function
parameters (the `String` is the text of the raised exception, `str(e)`), and
each function's `try`/`except` boundary becomes a `tryWrap` around an
`Except String PyDict` body.
-/

set_option autoImplicit false

/-- A Python value as it appears in the payloads handled by the tool modules:
`None`, strings, integers, booleans, lists and string-keyed dictionaries. -/
inductive PyVal where
  | none : PyVal
  | str : String → PyVal
  | int : Int → PyVal
  | bool : Bool → PyVal
  | list : List PyVal → PyVal
  | dict : List (String × PyVal) → PyVal
deriving Repr

/-- A Python dictionary with string keys: an association list in insertion
order, with no duplicate keys ever produced by the embedded code. -/
abbrev PyDict := List (String × PyVal)

/-- Python truthiness (`bool(v)`): `None`, `""`, `0`, `False`, `[]`, `{}` are
falsy, everything else truthy. -/
def pyTruthy : PyVal → Bool
  | .none => false
  | .str s => s ≠ ""
  | .int n => n ≠ 0
  | .bool b => b
  | .list xs => !xs.isEmpty
  | .dict xs => !xs.isEmpty

mutual

/-- Python `repr`. String values are wrapped in single quotes (inner-quote
escaping is not modelled; no embedded payload in this development contains a
quote character). -/
def pyRepr : PyVal → String
  | .none => "None"
  | .str s => "\x27" ++ s ++ "\x27"
  | .int n => toString n
  | .bool true => "True"
  | .bool false => "False"
  | .list xs => "[" ++ pyReprList xs ++ "]"
  | .dict xs => "\x7b" ++ pyReprPairs xs ++ "\x7d"

/-- `repr` of the comma-separated elements of a Python list. -/
def pyReprList : List PyVal → String
  | [] => ""
  | [x] => pyRepr x
  | x :: y :: xs => pyRepr x ++ ", " ++ pyReprList (y :: xs)

/-- `repr` of the comma-separated `key: value` pairs of a Python dict. -/
def pyReprPairs : List (String × PyVal) → String
  | [] => ""
  | [(k, v)] => "\x27" ++ k ++ "\x27: " ++ pyRepr v
  | (k, v) :: p :: xs => "\x27" ++ k ++ "\x27: " ++ pyRepr v ++ ", " ++ pyReprPairs (p :: xs)

end

/-- Python `str`: identity on strings, `repr` on everything else (for the
types in `PyVal`, `str` and `repr` agree except on strings). -/
def pyStr : PyVal → String
  | .str s => s
  | v => pyRepr v

/-- `d[k]`-style lookup returning the first (and only) binding of `k`. -/
def dictGet : PyDict → String → Option PyVal
  | [], _ => Option.none
  | (k, v) :: rest, q => if k == q then some v else dictGet rest q

/-- `k in d`. -/
def hasKey : PyDict → String → Bool
  | [], _ => false
  | (k, _) :: rest, q => if k == q then true else hasKey rest q

/-- `d[k] = v`: replace the value in place if the key is present (Python
keeps the key's position), otherwise append the new binding. -/
def dictSet : PyDict → String → PyVal → PyDict
  | [], k, v => [(k, v)]
  | (k0, v0) :: rest, k, v =>
    if k0 == k then (k, v) :: rest else (k0, v0) :: dictSet rest k v

/-- `d.pop(k, None)` as far as the resulting dict is concerned: remove the
binding of `k` if present, keeping the order of the others. -/
def dictPop : PyDict → String → PyDict
  | [], _ => []
  | (k0, v0) :: rest, k =>
    if k0 == k then dictPop rest k else (k0, v0) :: dictPop rest k

/-- The `try:`/`except Exception as e:` boundary of a tool function: an
exception becomes `{"error": pfx + str(e)}`. -/
def tryWrap (pfx : String) (body : Except String PyDict) : PyDict :=
  match body with
  | .ok d => d
  | .error e => [("error", .str (pfx ++ e))]

/-- Truthiness of an optional string parameter (`not project_name` is true
exactly when the parameter is `None` or the empty string). -/
def strTruthy : Option String → Bool
  | Option.none => false
  | some s => s ≠ ""

/-- The `if x == "null": x = None` normalization applied to string
parameters received from the tool-calling host. -/
def nullToNone (o : Option String) : Option String :=
  if o == some "null" then Option.none else o

/-- `x if x else None` for an optional string argument. -/
def truthyOrNone (o : Option String) : Option String :=
  if strTruthy o then o else Option.none

/-- `[x] if x else None`: the id-filter argument built from `trace_id`. -/
def singletonArg (o : Option String) : Option (List String) :=
  match o with
  | some s => if s = "" then Option.none else some [s]
  | Option.none => Option.none

/-- `"{}".format(x)` for an optional string: `None` prints as `"None"`. -/
def optFormat : Option String → String
  | Option.none => "None"
  | some s => s

/-! ## `fetch_trace_tool` (services/tools/traces.py) -/

/-- A run object as returned by `client.list_runs` with the field selection
used by `fetch_trace_tool`.  The selected attributes are present on the
returned object; `thread_id` is additionally probed with `hasattr` in the
source, so it is modelled as optional (`Option.none` = attribute absent). -/
structure TraceRun where
  id : PyVal
  run_type : PyVal
  error : PyVal
  inputs : PyVal
  outputs : PyVal
  total_tokens : PyVal
  total_cost : PyVal
  feedback_stats : PyVal
  app_path : PyVal
  thread_id : Option PyVal

/-- The success dictionary built by `fetch_trace_tool` from the first run. -/
def traceRunDict (run : TraceRun) : PyDict :=
  [ ("trace_id", .str (pyStr run.id)),
    ("run_type", run.run_type),
    ("id", .str (pyStr run.id)),
    ("error", run.error),
    ("inputs", run.inputs),
    ("outputs", run.outputs),
    ("total_tokens", run.total_tokens),
    ("total_cost", .str (pyStr run.total_cost)),
    ("feedback_stats", run.feedback_stats),
    ("app_path", run.app_path),
    ("thread_id", match run.thread_id with
                  | some t => .str (pyStr t)
                  | Option.none => .none) ]

/-- `fetch_trace_tool(client, project_name, trace_id)`.  The client is the
function `list_runs`, receiving the `project_name` argument and the `id`
list argument actually passed by the source (the fixed `select`, `is_root`
and `limit=1` arguments are implicit in the response type); it yields the
listed runs or the text of the exception it raises. -/
def fetch_trace_tool
    (list_runs : Option String → Option (List String) → Except String (List TraceRun))
    (project_name trace_id : Option String) : PyDict :=
  let pn := nullToNone project_name
  let tid := nullToNone trace_id
  if !strTruthy pn && !strTruthy tid then
    [("error", .str "Error: Either project_name or trace_id must be provided.")]
  else
    tryWrap "Error fetching last trace: "
      (match list_runs (truthyOrNone pn) (singletonArg tid) with
       | .error e => .error e
       | .ok runs =>
         match runs with
         | [] => .ok [("error", .str ("No runs found for project_name: " ++ optFormat pn))]
         | run :: _ => .ok (traceRunDict run))

/-! ## `get_project_runs_stats_tool` (services/tools/traces.py) -/

/-- Helper for `splitSlash`: the yet-unemitted characters of the current
piece are carried in reverse. -/
def splitSlashAux : List Char → List Char → List String
  | [], acc => [String.mk acc.reverse]
  | c :: cs, acc =>
    if c = '/' then String.mk acc.reverse :: splitSlashAux cs []
    else splitSlashAux cs (c :: acc)

/-- Python `s.split("/")` (single-character separator): splitting the empty
string yields `[""]`, a trailing separator yields a trailing `""` piece. -/
def splitSlash (s : String) : List String := splitSlashAux s.data []

/-- `get_project_runs_stats_tool(client, project_name, trace_id)`.  The
client is the function `get_run_stats`, receiving the `project_names` and
`trace` arguments actually passed by the source and yielding the statistics
dictionary or the text of the exception it raises.

When `project_name` is `None` after normalization (trace-only call), the
source still evaluates `project_name.split("/")`, which raises
`AttributeError` inside the `try` block; the embedding reproduces that
exception with Python's message text. -/
def get_project_runs_stats_tool
    (get_run_stats : Option (List String) → Option String → Except String PyDict)
    (project_name trace_id : Option String) : PyDict :=
  let pn := nullToNone project_name
  let tid := nullToNone trace_id
  if !strTruthy pn && !strTruthy tid then
    [("error", .str "Error: Either project_name or trace_id must be provided.")]
  else
    tryWrap "Error getting project runs stats: "
      (match pn with
       | Option.none => .error "\x27NoneType\x27 object has no attribute \x27split\x27"
       | some p =>
         let parts := splitSlash p
         let actual_project_name := match parts with
                                    | [_, second] => second
                                    | _ => p
         match get_run_stats (if strTruthy pn then some [actual_project_name] else Option.none)
                             (if strTruthy tid then tid else Option.none) with
         | .error e => .error e
         | .ok stats =>
           .ok (dictSet (dictPop stats "run_facets") "project_name" (.str actual_project_name)))

/-! ## `fetch_run_tool` (services/tools/traces.py) -/

/-- The run object returned by `client.read_run`.  Attributes read without a
`hasattr` guard in the source (`id`, `name`, `run_type`, `inputs`,
`outputs`, `error`) are plain fields; every `hasattr`-guarded attribute is
an `Option` (`Option.none` = attribute absent). -/
structure RunObj where
  id : PyVal
  name : PyVal
  run_type : PyVal
  status : Option PyVal
  start_time : Option PyVal
  end_time : Option PyVal
  latency : Option PyVal
  inputs : PyVal
  outputs : PyVal
  error : PyVal
  total_tokens : Option PyVal
  prompt_tokens : Option PyVal
  completion_tokens : Option PyVal
  total_cost : Option PyVal
  prompt_cost : Option PyVal
  completion_cost : Option PyVal
  tags : Option PyVal
  trace_id : Option PyVal
  parent_run_id : Option PyVal

/-- A run object from the child-run listing in `fetch_run_tool`, with the
same guarded/unguarded attribute split as in the source. -/
structure ChildRun where
  id : PyVal
  name : PyVal
  run_type : PyVal
  status : Option PyVal
  start_time : Option PyVal
  end_time : Option PyVal
  latency : Option PyVal
  error : PyVal
  inputs : PyVal
  outputs : PyVal
  total_tokens : Option PyVal
  total_cost : Option PyVal
  parent_run_id : Option PyVal

/-- `str(x) if hasattr(run, "x") else None`. -/
def optStrField : Option PyVal → PyVal
  | some v => .str (pyStr v)
  | Option.none => .none

/-- `run.x if hasattr(run, "x") else None`. -/
def optField : Option PyVal → PyVal
  | some v => v
  | Option.none => .none

/-- The main `run_info` dictionary of `fetch_run_tool`, keys in source
order. -/
def mainRunInfo (run : RunObj) : PyDict :=
  [ ("id", .str (pyStr run.id)),
    ("name", run.name),
    ("run_type", run.run_type),
    ("status", optField run.status),
    ("start_time", optStrField run.start_time),
    ("end_time", optStrField run.end_time),
    ("latency_ms", optField run.latency),
    ("inputs", run.inputs),
    ("outputs", run.outputs),
    ("error", run.error),
    ("total_tokens", optField run.total_tokens),
    ("prompt_tokens", optField run.prompt_tokens),
    ("completion_tokens", optField run.completion_tokens),
    ("total_cost", optStrField run.total_cost),
    ("prompt_cost", optStrField run.prompt_cost),
    ("completion_cost", optStrField run.completion_cost),
    ("tags", match run.tags with
             | some t => t
             | Option.none => .list []),
    ("trace_id", optStrField run.trace_id),
    ("parent_run_id", match run.parent_run_id with
                      | some p => if pyTruthy p then .str (pyStr p) else .none
                      | Option.none => .none) ]

/-- The child-run filter of `fetch_run_tool`:
`hasattr(c, "parent_run_id") and c.parent_run_id and str(c.parent_run_id) == run_id`. -/
def childMatches (run_id : String) (c : ChildRun) : Bool :=
  match c.parent_run_id with
  | some p => pyTruthy p && pyStr p == run_id
  | Option.none => false

/-- The projection of one child run, keys in source order. -/
def childDict (c : ChildRun) : PyDict :=
  [ ("id", .str (pyStr c.id)),
    ("name", c.name),
    ("run_type", c.run_type),
    ("status", optField c.status),
    ("start_time", optStrField c.start_time),
    ("end_time", optStrField c.end_time),
    ("latency_ms", optField c.latency),
    ("error", c.error),
    ("inputs", c.inputs),
    ("outputs", c.outputs),
    ("total_tokens", optField c.total_tokens),
    ("total_cost", optStrField c.total_cost) ]

/-- The sort key `x.get("start_time", "")`.  Every dictionary built by
`childDict` contains the key `"start_time"` (with value `None` when the
attribute was absent), so the `""` default of `.get` never applies. -/
def childSortKey (x : PyDict) : PyVal :=
  match dictGet x "start_time" with
  | some v => v
  | Option.none => .str ""

/-- Is the value a Python string (sort keys that are not raise `TypeError`
when compared with the string keys)? -/
def isStrVal : PyVal → Bool
  | .str _ => true
  | _ => false

/-- The string carried by a string-valued sort key. -/
def keyStr : PyVal → String
  | .str s => s
  | _ => ""

/-- Lexicographic strict order on character lists: Python `<` on strings. -/
def charListLt : List Char → List Char → Bool
  | [], [] => false
  | [], _ :: _ => true
  | _ :: _, [] => false
  | a :: as, b :: bs =>
    if a < b then true
    else if b < a then false
    else charListLt as bs

/-- Python `a < b` on strings (lexicographic on code points; agrees with
Lean's `String` order, defined structurally so it computes by `rfl`). -/
def pyStrLt (a b : String) : Bool := charListLt a.data b.data

/-- Stable insertion for an ascending sort on the `start_time` key: an
element is placed after every earlier element whose key is ≤ its own. -/
def insertAsc (a : PyDict) : List PyDict → List PyDict
  | [] => [a]
  | b :: bs =>
    if pyStrLt (keyStr (childSortKey a)) (keyStr (childSortKey b)) then a :: b :: bs
    else b :: insertAsc a bs

/-- `child_runs.sort(key=lambda x: x.get("start_time", ""))`.  All keys are
Python strings or `None`; a full comparison sort of two or more elements
compares every element at least once, so any `None` key raises `TypeError`
(`None` is not ordered against `str` or `None` in Python 3).  On success the
result is the stable ascending order Python's stable sort produces. -/
def pySortByStartTime (xs : List PyDict) : Except String (List PyDict) :=
  if 2 ≤ xs.length && xs.any (fun x => !isStrVal (childSortKey x)) then
    .error "\x27<\x27 not supported between instances of \x27NoneType\x27 and \x27str\x27"
  else
    .ok (xs.foldl (fun acc a => insertAsc a acc) [])

/-- The inner `try` of `fetch_run_tool` around the child-run listing, filter
and sort.  Returns the final value of the local `child_runs` variable
together with the exception text, if any:
* listing raises → `child_runs` keeps its initial value `[]`;
* sort raises → `child_runs` is the filtered list (Python leaves the list
  in an unspecified partially-sorted order; the embedding keeps the
  pre-sort order, and no theorem below relies on the order in this case);
* no exception → the sorted, filtered projections. -/
def childPhase (listing : Except String (List ChildRun)) (run_id : String) :
    List PyDict × Option String :=
  match listing with
  | .error e => ([], some e)
  | .ok children =>
    let filtered := (children.filter (childMatches run_id)).map childDict
    match pySortByStartTime filtered with
    | .ok sorted => (sorted, Option.none)
    | .error e => (filtered, some e)

/-- `run_id == "null" or not run_id`. -/
def runIdMissing : Option String → Bool
  | Option.none => true
  | some s => s == "null" || s == ""

/-- `fetch_run_tool(client, run_id)`.  The client is the pair of functions
`read_run` (yielding `None`, a run object, or an exception text) and
`list_runs` (receiving the `trace_id` argument actually passed and yielding
the trace's runs or an exception text). -/
def fetch_run_tool
    (read_run : String → Except String (Option RunObj))
    (list_runs : Option String → Except String (List ChildRun))
    (run_id : Option String) : PyDict :=
  if runIdMissing run_id then
    [("error", .str "Error: run_id must be provided.")]
  else
    match run_id with
    | Option.none => [("error", .str "Error: run_id must be provided.")]
    | some rid =>
      tryWrap "Error fetching run: "
        (match read_run rid with
         | .error e => .error e
         | .ok Option.none => .ok [("error", .str ("No run found with ID: " ++ rid))]
         | .ok (some run) =>
           let info := mainRunInfo run
           let traceArg : Option String := match run.trace_id with
                                           | some t => some (pyStr t)
                                           | Option.none => Option.none
           let phase := childPhase (list_runs traceArg) rid
           let info := match phase.2 with
                       | some e => dictSet info "child_runs_error"
                                     (.str ("Could not fetch child runs: " ++ e))
                       | Option.none => info
           let info := dictSet info "child_runs" (.list (phase.1.map PyVal.dict))
           let info := dictSet info "child_run_count" (.int phase.1.length)
           .ok info)

/-! ## `get_thread_history_tool` (services/tools/traces.py) -/

/-- A run returned by the filtered `list_runs` call of
`get_thread_history_tool`.  `start_time` is read without a guard and is the
comparison key of the descending sort; it is modelled as the ISO-8601 text
of the timestamp, whose lexicographic order agrees with the chronological
order the Python `datetime` comparison uses.  `inputs` and `outputs` are
probed with `hasattr`, so both are `Option`s; `inputs` is a dictionary on
every run the remote client returns. -/
structure ThreadRun where
  start_time : String
  inputs : Option PyDict
  outputs : Option PyVal

/-- Stable insertion for the descending sort
`sorted(runs, key=lambda run: run.start_time, reverse=True)`: an element is
placed after every earlier element whose key is ≥ its own. -/
def insertDesc (a : ThreadRun) : List ThreadRun → List ThreadRun
  | [] => [a]
  | b :: bs =>
    if pyStrLt b.start_time a.start_time then a :: b :: bs
    else b :: insertDesc a bs

/-- `sorted(runs, key=lambda run: run.start_time, reverse=True)` (stable). -/
def sortByStartDesc (runs : List ThreadRun) : List ThreadRun :=
  runs.foldl (fun acc a => insertDesc a acc) []

/-- `messages.extend(latest_run.inputs["messages"])`: extending with a list
appends its elements, with a string appends its characters, with a dict
appends its keys; anything else raises `TypeError`. -/
def pyExtend (acc : List PyVal) : PyVal → Except String (List PyVal)
  | .list xs => .ok (acc ++ xs)
  | .str s => .ok (acc ++ s.toList.map (fun c => .str (String.mk [c])))
  | .dict xs => .ok (acc ++ xs.map (fun p => .str p.1))
  | _ => .error "\x27NoneType\x27 object is not iterable"

/-- The input-message collection of `get_thread_history_tool`:
`if hasattr(latest_run, "inputs") and "messages" in latest_run.inputs`. -/
def inputMsgs (inputs : Option PyDict) : Except String (List PyVal) :=
  match inputs with
  | some d =>
    if hasKey d "messages" then
      pyExtend [] (match dictGet d "messages" with
                   | some v => v
                   | Option.none => .none)
    else .ok []
  | Option.none => .ok []

/-- The output-message collection of `get_thread_history_tool`: when the
outputs dictionary has a `"choices"` key the first branch is taken (and the
`elif` on a direct `"message"` key is not evaluated); the derived message is
appended only when `choices` is a non-empty list whose first element
contains a `"message"` field. -/
def outputMsgs (outputs : Option PyVal) : Except String (List PyVal) :=
  match outputs with
  | some (.dict od) =>
    if hasKey od "choices" then
      match dictGet od "choices" with
      | some (.list cs) =>
        match cs with
        | c0 :: _ =>
          match c0 with
          | .dict c0d =>
            if hasKey c0d "message" then
              .ok [match dictGet c0d "message" with
                   | some m => m
                   | Option.none => .none]
            else .ok []
          | .str s =>
            if (s.splitOn "message").length > 1 then
              .error "string indices must be integers"
            else .ok []
          | _ => .error "argument of type \x27int\x27 is not iterable"
        | [] => .ok []
      | _ => .ok []
    else
      if hasKey od "message" then
        .ok [match dictGet od "message" with
             | some m => m
             | Option.none => .none]
      else .ok []
  | _ => .ok []

/-- The body of `get_thread_history_tool`'s `try` block.  Indexing `runs[0]`
on an empty list would raise `IndexError`; the sort preserves length, so
that branch is unreachable after the emptiness check. -/
def threadBody (listing : Except String (List ThreadRun))
    (thread_id project_name : String) : Except String PyDict :=
  match listing with
  | .error e => .error e
  | .ok runs =>
    if runs.isEmpty then
      .ok [("error", .str ("No runs found for thread " ++ thread_id ++
                           " in project " ++ project_name))]
    else
      match sortByStartDesc runs with
      | [] => .error "list index out of range"
      | latest :: _ =>
        match inputMsgs latest.inputs with
        | .error e => .error e
        | .ok ms1 =>
          match outputMsgs latest.outputs with
          | .error e => .error e
          | .ok ms2 =>
            let messages := ms1 ++ ms2
            if messages.isEmpty then
              .ok [("error", .str ("No messages found in the run for thread " ++ thread_id))]
            else
              .ok [("result", .list messages)]

/-- `get_thread_history_tool(client, thread_id, project_name)`.  The client
is the (already filter-scoped) `list_runs` response: the matching llm runs
or the text of the exception it raises. -/
def get_thread_history_tool (listing : Except String (List ThreadRun))
    (thread_id project_name : String) : PyDict :=
  tryWrap "Error fetching thread history: " (threadBody listing thread_id project_name)

/-! ## `list_datasets_tool` and `list_examples_tool` (services/tools/datasets.py) -/

/-- A `datetime` value, carried as its ISO-8601 rendering. -/
structure PyDateTime where
  iso : String

/-- `value.isoformat()`. -/
def PyDateTime.isoformat (t : PyDateTime) : String := t.iso

/-- A dataset object from `client.list_datasets`.  Every projected
attribute is read with `getattr(dataset, attr, None)`, so all are optional;
`created_at`/`modified_at`, when present, are `datetime` values on which
`isoformat()` is called. -/
structure DatasetObj where
  id : Option PyVal
  name : Option PyVal
  inputs_schema_definition : Option PyVal
  outputs_schema_definition : Option PyVal
  description : Option PyVal
  data_type : Option PyVal
  example_count : Option PyVal
  session_count : Option PyVal
  created_at : Option PyDateTime
  modified_at : Option PyDateTime
  last_session_start_time : Option PyVal

/-- `getattr(_, attr, None)` followed by the isoformat conversion for the
two datetime attributes. -/
def isoField : Option PyDateTime → PyVal
  | some t => .str t.isoformat
  | Option.none => .none

/-- The per-dataset projection of `list_datasets_tool`, keys in the order of
the `attrs` list. -/
def formatDataset (d : DatasetObj) : PyDict :=
  [ ("id", optField d.id),
    ("name", optField d.name),
    ("inputs_schema_definition", optField d.inputs_schema_definition),
    ("outputs_schema_definition", optField d.outputs_schema_definition),
    ("description", optField d.description),
    ("data_type", optField d.data_type),
    ("example_count", optField d.example_count),
    ("session_count", optField d.session_count),
    ("created_at", isoField d.created_at),
    ("modified_at", isoField d.modified_at),
    ("last_session_start_time", optField d.last_session_start_time) ]

/-- The `kwargs` dictionary built by `list_datasets_tool`: each parameter is
included only when it is not `None`; `limit` defaults to 20. -/
def datasetKwargs (dataset_ids data_type dataset_name dataset_name_contains
    metadata limit : Option PyVal) : PyDict :=
  let kw : PyDict := []
  let kw := match dataset_ids with
            | some v => dictSet kw "dataset_ids" v
            | Option.none => kw
  let kw := match data_type with
            | some v => dictSet kw "data_type" v
            | Option.none => kw
  let kw := match dataset_name with
            | some v => dictSet kw "dataset_name" v
            | Option.none => kw
  let kw := match dataset_name_contains with
            | some v => dictSet kw "dataset_name_contains" v
            | Option.none => kw
  let kw := match metadata with
            | some v => dictSet kw "metadata" v
            | Option.none => kw
  let kw := match limit with
            | some v => dictSet kw "limit" v
            | Option.none => kw
  kw

/-- `list_datasets_tool(client, ...)`.  The client is the function
`list_datasets`, receiving the built `kwargs` and yielding the datasets or
the text of the exception it raises.  In the source every filter parameter
defaults to `None` and `limit` defaults to `20`; the embedding takes the
parameters explicitly (a caller modelling the Python defaults passes
`Option.none` five times and `some (.int 20)`). -/
def list_datasets_tool
    (list_datasets : PyDict → Except String (List DatasetObj))
    (dataset_ids data_type dataset_name dataset_name_contains
     metadata limit : Option PyVal) : PyDict :=
  tryWrap "Error fetching datasets: "
    (match list_datasets (datasetKwargs dataset_ids data_type dataset_name
                           dataset_name_contains metadata limit) with
     | .error e => .error e
     | .ok datasets =>
       let formatted := datasets.map formatDataset
       .ok [("datasets", .list (formatted.map PyVal.dict)),
            ("total_count", .int formatted.length)])

/-- An example object from `client.list_examples`, with every projected
attribute read via `getattr(example, attr, None)`. -/
structure ExampleObj where
  id : Option PyVal
  inputs : Option PyVal
  outputs : Option PyVal
  metadata : Option PyVal
  created_at : Option PyDateTime
  modified_at : Option PyDateTime
  dataset_id : Option PyVal

/-- The per-example projection of `list_examples_tool`, keys in the order of
the `attrs` list. -/
def formatExample (e : ExampleObj) : PyDict :=
  [ ("id", optField e.id),
    ("inputs", optField e.inputs),
    ("outputs", optField e.outputs),
    ("metadata", optField e.metadata),
    ("created_at", isoField e.created_at),
    ("modified_at", isoField e.modified_at),
    ("dataset_id", optField e.dataset_id) ]

/-- The `kwargs` dictionary built by `list_examples_tool` (no default
`limit` here; every parameter is included only when not `None`). -/
def exampleKwargs (dataset_id dataset_name limit offset : Option PyVal) : PyDict :=
  let kw : PyDict := []
  let kw := match dataset_id with
            | some v => dictSet kw "dataset_id" v
            | Option.none => kw
  let kw := match dataset_name with
            | some v => dictSet kw "dataset_name" v
            | Option.none => kw
  let kw := match limit with
            | some v => dictSet kw "limit" v
            | Option.none => kw
  let kw := match offset with
            | some v => dictSet kw "offset" v
            | Option.none => kw
  kw

/-- `list_examples_tool(client, dataset_id, dataset_name, limit, offset)`;
all four parameters default to `None` in the source and are taken
explicitly here. -/
def list_examples_tool
    (list_examples : PyDict → Except String (List ExampleObj))
    (dataset_id dataset_name limit offset : Option PyVal) : PyDict :=
  tryWrap "Error fetching examples: "
    (match list_examples (exampleKwargs dataset_id dataset_name limit offset) with
     | .error e => .error e
     | .ok examples =>
       let formatted := examples.map formatExample
       .ok [("examples", .list (formatted.map PyVal.dict)),
            ("total_count", .int formatted.length)])

/-! ## Concrete sample objects used by counterexamples and witnesses -/

/-- A successfully fetched root run with no error of its own. -/
def sampleTraceRun : TraceRun :=
  ⟨.str "run-1",          -- id
   .str "chain",          -- run_type
   .none,                 -- error (the run itself succeeded)
   .dict [],              -- inputs
   .dict [],              -- outputs
   .int 7,                -- total_tokens
   .int 0,                -- total_cost
   .none,                 -- feedback_stats
   .str "/o/p",           -- app_path
   some (.str "th-1")⟩    -- thread_id

/-- A run object for `read_run`, with every probed attribute present. -/
def sampleRunObj : RunObj :=
  ⟨.str "r1",                          -- id
   .str "main",                        -- name
   .str "chain",                       -- run_type
   some (.str "success"),              -- status
   some (.str "2024-01-01T00:00:00"),  -- start_time
   some (.str "2024-01-01T00:01:00"),  -- end_time
   some (.int 60),                     -- latency
   .dict [],                           -- inputs
   .dict [],                           -- outputs
   .none,                              -- error
   some (.int 10),                     -- total_tokens
   some (.int 4),                      -- prompt_tokens
   some (.int 6),                      -- completion_tokens
   some (.int 0),                      -- total_cost
   some (.int 0),                      -- prompt_cost
   some (.int 0),                      -- completion_cost
   some (.list []),                    -- tags
   some (.str "t1"),                   -- trace_id
   Option.none⟩                        -- parent_run_id (trace root)

/-- A child of `sampleRunObj` whose `start_time` attribute is present. -/
def childWithStart : ChildRun :=
  ⟨.str "c1",                          -- id
   .str "step-a",                      -- name
   .str "llm",                         -- run_type
   some (.str "success"),              -- status
   some (.str "2024-01-02T00:00:00"),  -- start_time
   some (.str "2024-01-02T00:00:05"),  -- end_time
   some (.int 5),                      -- latency
   .none,                              -- error
   .dict [],                           -- inputs
   .dict [],                           -- outputs
   some (.int 3),                      -- total_tokens
   some (.int 0),                      -- total_cost
   some (.str "r1")⟩                   -- parent_run_id

/-- A child of `sampleRunObj` whose `start_time` attribute is absent. -/
def childNoStart : ChildRun :=
  ⟨.str "c2",                          -- id
   .str "step-b",                      -- name
   .str "tool",                        -- run_type
   some (.str "success"),              -- status
   Option.none,                        -- start_time (attribute absent)
   Option.none,                        -- end_time
   some (.int 2),                      -- latency
   .none,                              -- error
   .dict [],                           -- inputs
   .dict [],                           -- outputs
   some (.int 1),                      -- total_tokens
   some (.int 0),                      -- total_cost
   some (.str "r1")⟩                   -- parent_run_id

/-- A child of `sampleRunObj` starting later than `childWithStart`. -/
def childLater : ChildRun :=
  ⟨.str "c3",                          -- id
   .str "step-c",                      -- name
   .str "llm",                         -- run_type
   some (.str "success"),              -- status
   some (.str "2024-01-03T00:00:00"),  -- start_time
   some (.str "2024-01-03T00:00:04"),  -- end_time
   some (.int 4),                      -- latency
   .none,                              -- error
   .dict [],                           -- inputs
   .dict [],                           -- outputs
   some (.int 2),                      -- total_tokens
   some (.int 0),                      -- total_cost
   some (.str "r1")⟩                   -- parent_run_id

/-- A run in the same trace whose parent is a different run. -/
def childOtherParent : ChildRun :=
  ⟨.str "c4",                          -- id
   .str "step-d",                      -- name
   .str "tool",                        -- run_type
   some (.str "success"),              -- status
   some (.str "2024-01-01T12:00:00"),  -- start_time
   some (.str "2024-01-01T12:00:01"),  -- end_time
   some (.int 1),                      -- latency
   .none,                              -- error
   .dict [],                           -- inputs
   .dict [],                           -- outputs
   some (.int 1),                      -- total_tokens
   some (.int 0),                      -- total_cost
   some (.str "rX")⟩                   -- parent_run_id (different run)

/-- A run in the same trace with no parent (the trace root itself). -/
def childNoParent : ChildRun :=
  ⟨.str "r1",                          -- id
   .str "main",                        -- name
   .str "chain",                       -- run_type
   some (.str "success"),              -- status
   some (.str "2024-01-01T00:00:00"),  -- start_time
   some (.str "2024-01-01T00:01:00"),  -- end_time
   some (.int 60),                     -- latency
   .none,                              -- error
   .dict [],                           -- inputs
   .dict [],                           -- outputs
   some (.int 10),                     -- total_tokens
   some (.int 0),                      -- total_cost
   Option.none⟩                        -- parent_run_id (absent)

/-- A statistics dictionary as the remote `get_run_stats` returns it. -/
def sampleStats : PyDict :=
  [("run_facets", .list []), ("run_count", .int 5)]

/-- The role-user, content-hello input message of the thread-history
scenario. -/
def userMsg : PyVal :=
  .dict [("role", .str "user"), ("content", .str "hello")]

/-- The role-assistant, content-hi output message of the thread-history
scenario. -/
def assistantMsg : PyVal :=
  .dict [("role", .str "assistant"), ("content", .str "hi")]

/-- A thread run carrying the claim C8 payloads. -/
def sampleThreadRun : ThreadRun :=
  ⟨"2024-03-01T10:00:00",
   some [("messages", .list [userMsg])],
   some (.dict [("choices", .list [.dict [("message", assistantMsg)]])])⟩

/-- A thread run whose outputs hold an empty `choices` list next to a direct
`message` field, and whose inputs hold no messages. -/
def threadRunEmptyChoices : ThreadRun :=
  ⟨"2024-03-01T10:00:00",
   some [("other", .int 1)],
   some (.dict [("choices", .list []), ("message", assistantMsg)])⟩

/-- A thread run whose first choice lacks a `message` field, next to a
direct `message` field. -/
def threadRunChoiceNoMessage : ThreadRun :=
  ⟨"2024-03-01T10:00:00",
   some [("other", .int 1)],
   some (.dict [("choices", .list [.dict [("text", .str "hi")]]), ("message", assistantMsg)])⟩

/-- A dataset object with no `modified_at` (and no description). -/
def sampleDataset : DatasetObj :=
  ⟨some (.str "ds-1"),                        -- id
   some (.str "my-dataset"),                  -- name
   Option.none,                               -- inputs_schema_definition
   Option.none,                               -- outputs_schema_definition
   Option.none,                               -- description
   some (.str "kv"),                          -- data_type
   some (.int 3),                             -- example_count
   some (.int 1),                             -- session_count
   some ⟨"2024-01-01T00:00:00"⟩,              -- created_at
   Option.none,                               -- modified_at (attribute absent)
   Option.none⟩                               -- last_session_start_time

/-- An example object with no `modified_at`. -/
def sampleExample : ExampleObj :=
  ⟨some (.str "ex-1"),                        -- id
   some (.dict [("question", .str "q")]),     -- inputs
   some (.dict [("answer", .str "a")]),       -- outputs
   Option.none,                               -- metadata
   some ⟨"2024-01-01T00:00:00"⟩,              -- created_at
   Option.none,                               -- modified_at (attribute absent)
   some (.str "ds-1")⟩                        -- dataset_id

/-- Did the embedded client call raise? -/
def isExcError {α : Type} : Except String α → Bool
  | .error _ => true
  | .ok _ => false

/-! ## Helper lemmas -/

theorem hasKey_dictSet (d : PyDict) (k q : String) (v : PyVal) :
    hasKey (dictSet d k v) q = (k == q || hasKey d q) := by
  induction d with
  | nil => simp [dictSet, hasKey, beq_eq_decide]
  | cons p rest ih =>
    obtain ⟨k0, v0⟩ := p
    by_cases h0 : k0 = k
    · subst h0
      by_cases hq : k0 = q <;> simp [dictSet, hasKey, hq]
    · by_cases hq : k0 = q
      · subst hq
        simp [dictSet, hasKey, h0, Ne.symm h0, beq_iff_eq]
      · simp [dictSet, hasKey, h0, hq, ih, beq_iff_eq]

theorem dictGet_dictSet_self (d : PyDict) (k : String) (v : PyVal) :
    dictGet (dictSet d k v) k = some v := by
  induction d with
  | nil => simp [dictSet, dictGet]
  | cons p rest ih =>
    obtain ⟨k0, v0⟩ := p
    by_cases h0 : k0 = k
    · subst h0; simp [dictSet, dictGet]
    · simp [dictSet, dictGet, h0, ih, beq_iff_eq]

theorem dictGet_dictSet_ne (d : PyDict) (k q : String) (v : PyVal) (h : k ≠ q) :
    dictGet (dictSet d k v) q = dictGet d q := by
  induction d with
  | nil => simp [dictSet, dictGet, h, beq_iff_eq]
  | cons p rest ih =>
    obtain ⟨k0, v0⟩ := p
    by_cases h0 : k0 = k
    · subst h0; simp [dictSet, dictGet, h, beq_iff_eq]
    · by_cases hq : k0 = q
      · subst hq
        simp [dictSet, dictGet, h0, Ne.symm h, beq_iff_eq]
      · simp [dictSet, dictGet, h0, hq, ih, beq_iff_eq]

theorem hasKey_dictPop_self (d : PyDict) (k : String) :
    hasKey (dictPop d k) k = false := by
  induction d with
  | nil => simp [dictPop, hasKey]
  | cons p rest ih =>
    obtain ⟨k0, v0⟩ := p
    by_cases h0 : k0 = k
    · subst h0; simp [dictPop, ih]
    · simp [dictPop, hasKey, h0, ih, beq_iff_eq]

theorem hasKey_dictPop_ne (d : PyDict) (k q : String) (h : q ≠ k) :
    hasKey (dictPop d k) q = hasKey d q := by
  induction d with
  | nil => simp [dictPop, hasKey]
  | cons p rest ih =>
    obtain ⟨k0, v0⟩ := p
    by_cases h0 : k0 = k
    · subst h0; simp [dictPop, hasKey, Ne.symm h, ih, beq_iff_eq]
    · by_cases hq : k0 = q
      · subst hq
        simp [dictPop, hasKey, h, beq_iff_eq]
      · simp [dictPop, hasKey, h0, hq, ih, beq_iff_eq]

theorem charListLt_asymm (as bs : List Char) (h : charListLt as bs = true) :
    charListLt bs as = false := by
  induction as generalizing bs with
  | nil =>
    cases bs with
    | nil => simp [charListLt] at h
    | cons b bs => simp [charListLt]
  | cons a as ih =>
    cases bs with
    | nil => simp [charListLt] at h
    | cons b bs =>
      by_cases hab : a < b
      · simp [charListLt, hab, asymm hab]
      · by_cases hba : b < a
        · simp [charListLt, hab, hba] at h
        · simp [charListLt, hab, hba] at h ⊢
          exact ih bs h

theorem pyStrLt_asymm (a b : String) (h : pyStrLt a b = true) :
    pyStrLt b a = false :=
  charListLt_asymm a.data b.data h

theorem hasKey_mainRunInfo_error (run : RunObj) :
    hasKey (mainRunInfo run) "error" = true := rfl

theorem hasKey_traceRunDict_error (run : TraceRun) :
    hasKey (traceRunDict run) "error" = true := rfl

/-! ## Claims -/

/-- C2: whenever both `project_name` and `trace_id` are omitted (`None`) or
equal to the literal text `"null"`, `fetch_trace_tool` and
`get_project_runs_stats_tool` each return exactly
`\x7b"error": "Error: Either project_name or trace_id must be provided."\x7d`;
the equations hold for every client function, so no client operation can
influence (or be required by) the result. -/
theorem C2_both_missing
    (fTrace : Option String → Option (List String) → Except String (List TraceRun))
    (fStats : Option (List String) → Option String → Except String PyDict)
    (project_name trace_id : Option String)
    (hp : project_name = Option.none ∨ project_name = some "null")
    (ht : trace_id = Option.none ∨ trace_id = some "null") :
    fetch_trace_tool fTrace project_name trace_id =
      [("error", .str "Error: Either project_name or trace_id must be provided.")] ∧
    get_project_runs_stats_tool fStats project_name trace_id =
      [("error", .str "Error: Either project_name or trace_id must be provided.")] := by
  rcases hp with hp | hp <;> rcases ht with ht | ht <;> subst hp <;> subst ht <;>
    exact ⟨rfl, rfl⟩

/-- Witness for C2 at `project_name = None`, `trace_id = "null"`. -/
theorem C2_both_missing_witness :
    fetch_trace_tool (fun _ _ => .ok []) Option.none (some "null") =
      [("error", .str "Error: Either project_name or trace_id must be provided.")] ∧
    get_project_runs_stats_tool (fun _ _ => .ok sampleStats) Option.none (some "null") =
      [("error", .str "Error: Either project_name or trace_id must be provided.")] :=
  C2_both_missing (fun _ _ => .ok []) (fun _ _ => .ok sampleStats)
    Option.none (some "null") (Or.inl rfl) (Or.inr rfl)

/-- C3 (code evaluated at the failing input): a trace-only call to
`get_project_runs_stats_tool` (with `project_name` omitted or `"null"` and a
real `trace_id`) never reaches the client: `project_name.split("/")` raises
`AttributeError` on `None`, and the caught exception is returned as an error
payload — for every client behavior, including one whose statistics call
would succeed. -/
theorem C3_trace_only_attribute_error
    (fStats : Option (List String) → Option String → Except String PyDict) :
    get_project_runs_stats_tool fStats Option.none (some "trace-1") =
      [("error", .str "Error getting project runs stats: \x27NoneType\x27 object has no attribute \x27split\x27")] ∧
    get_project_runs_stats_tool fStats (some "null") (some "trace-1") =
      [("error", .str "Error getting project runs stats: \x27NoneType\x27 object has no attribute \x27split\x27")] :=
  ⟨rfl, rfl⟩

/-- C7: `get_project_runs_stats_tool` with `project_name = "acme/widgets"`
calls the client with project-name list `["widgets"]`, and its successful
result is the client's statistics dictionary with `run_facets` removed and
`project_name = "widgets"` injected; with `project_name = "widgets"` the
effective name is unchanged and the result identical. -/
theorem C7_qualified_name
    (fStats : Option (List String) → Option String → Except String PyDict)
    (d : PyDict)
    (h : fStats (some ["widgets"]) Option.none = .ok d) :
    get_project_runs_stats_tool fStats (some "acme/widgets") Option.none =
      dictSet (dictPop d "run_facets") "project_name" (.str "widgets") ∧
    get_project_runs_stats_tool fStats (some "widgets") Option.none =
      dictSet (dictPop d "run_facets") "project_name" (.str "widgets") ∧
    hasKey (get_project_runs_stats_tool fStats (some "acme/widgets") Option.none)
      "run_facets" = false ∧
    dictGet (get_project_runs_stats_tool fStats (some "acme/widgets") Option.none)
      "project_name" = some (.str "widgets") := by
  have key1 : get_project_runs_stats_tool fStats (some "acme/widgets") Option.none =
      tryWrap "Error getting project runs stats: "
        (match fStats (some ["widgets"]) Option.none with
         | .error e => .error e
         | .ok stats =>
           .ok (dictSet (dictPop stats "run_facets") "project_name" (.str "widgets"))) := rfl
  have key2 : get_project_runs_stats_tool fStats (some "widgets") Option.none =
      tryWrap "Error getting project runs stats: "
        (match fStats (some ["widgets"]) Option.none with
         | .error e => .error e
         | .ok stats =>
           .ok (dictSet (dictPop stats "run_facets") "project_name" (.str "widgets"))) := rfl
  have e1 : get_project_runs_stats_tool fStats (some "acme/widgets") Option.none =
      dictSet (dictPop d "run_facets") "project_name" (.str "widgets") := by
    rw [key1, h]; rfl
  have e2 : get_project_runs_stats_tool fStats (some "widgets") Option.none =
      dictSet (dictPop d "run_facets") "project_name" (.str "widgets") := by
    rw [key2, h]; rfl
  refine ⟨e1, e2, ?_, ?_⟩
  · rw [e1, hasKey_dictSet, hasKey_dictPop_self]
    rfl
  · rw [e1, dictGet_dictSet_self]

/-- Witness for C7 with a client whose statistics dictionary contains a
`run_facets` entry. -/
theorem C7_qualified_name_witness :
    get_project_runs_stats_tool (fun _ _ => .ok sampleStats) (some "acme/widgets") Option.none =
      dictSet (dictPop sampleStats "run_facets") "project_name" (.str "widgets") ∧
    get_project_runs_stats_tool (fun _ _ => .ok sampleStats) (some "widgets") Option.none =
      dictSet (dictPop sampleStats "run_facets") "project_name" (.str "widgets") ∧
    hasKey (get_project_runs_stats_tool (fun _ _ => .ok sampleStats) (some "acme/widgets") Option.none)
      "run_facets" = false ∧
    dictGet (get_project_runs_stats_tool (fun _ _ => .ok sampleStats) (some "acme/widgets") Option.none)
      "project_name" = some (.str "widgets") :=
  C7_qualified_name (fun _ _ => .ok sampleStats) sampleStats rfl

/-- C8: when the most recent matching run carries input messages
`[role=user, content=hello]` and an output payload whose
`choices[0].message` is the assistant message `[role=assistant,
content=hi]`, `get_thread_history_tool` returns all input messages followed
by that single derived assistant message, for any start time and any
thread/project names. -/
theorem C8_thread_history_messages (thread_id project_name st : String) :
    get_thread_history_tool
      (.ok [⟨st, some [("messages", .list [userMsg])],
             some (.dict [("choices", .list [.dict [("message", assistantMsg)]])])⟩])
      thread_id project_name =
      [("result", .list [userMsg, assistantMsg])] := rfl

/-- C10: an outputs dictionary that has a `"choices"` key takes the
`choices` branch even when that key holds an empty list or a first choice
without a `"message"` field; the direct `"message"` field is then never
consulted, and with no input messages the call yields the
`No messages found` error payload. -/
theorem C10_choices_shadows_message (thread_id project_name st : String) (mv : PyVal) :
    get_thread_history_tool
      (.ok [⟨st, some [("other", .int 1)],
             some (.dict [("choices", .list []), ("message", mv)])⟩])
      thread_id project_name =
      [("error", .str ("No messages found in the run for thread " ++ thread_id))] ∧
    get_thread_history_tool
      (.ok [⟨st, some [("other", .int 1)],
             some (.dict [("choices", .list [.dict [("text", .str "hi")]]),
                          ("message", mv)])⟩])
      thread_id project_name =
      [("error", .str ("No messages found in the run for thread " ++ thread_id))] :=
  ⟨rfl, rfl⟩

/-- C9: on a successful listing, `list_datasets_tool` and
`list_examples_tool` return the projected dictionaries together with a
`total_count` equal to the length of that projected sequence, and the
projection substitutes `None` for a missing optional attribute (here
`modified_at`) instead of failing. -/
theorem C9_projection_defaults
    (fd : PyDict → Except String (List DatasetObj))
    (fe : PyDict → Except String (List ExampleObj))
    (p1 p2 p3 p4 p5 p6 q1 q2 q3 q4 : Option PyVal)
    (ds : List DatasetObj) (es : List ExampleObj)
    (hd : fd (datasetKwargs p1 p2 p3 p4 p5 p6) = .ok ds)
    (he : fe (exampleKwargs q1 q2 q3 q4) = .ok es) :
    list_datasets_tool fd p1 p2 p3 p4 p5 p6 =
      [("datasets", .list ((ds.map formatDataset).map PyVal.dict)),
       ("total_count", .int (ds.length : Int))] ∧
    list_examples_tool fe q1 q2 q3 q4 =
      [("examples", .list ((es.map formatExample).map PyVal.dict)),
       ("total_count", .int (es.length : Int))] ∧
    (∀ dob : DatasetObj, dob.modified_at = Option.none →
      dictGet (formatDataset dob) "modified_at" = some PyVal.none) ∧
    (∀ eob : ExampleObj, eob.modified_at = Option.none →
      dictGet (formatExample eob) "modified_at" = some PyVal.none) := by
  refine ⟨?_, ?_, ?_, ?_⟩
  · have key : list_datasets_tool fd p1 p2 p3 p4 p5 p6 =
        tryWrap "Error fetching datasets: "
          (match fd (datasetKwargs p1 p2 p3 p4 p5 p6) with
           | .error e => .error e
           | .ok datasets =>
             .ok [("datasets", .list ((datasets.map formatDataset).map PyVal.dict)),
                  ("total_count", .int ((datasets.map formatDataset).length : Int))]) := rfl
    rw [key, hd]
    simp [tryWrap]
  · have key : list_examples_tool fe q1 q2 q3 q4 =
        tryWrap "Error fetching examples: "
          (match fe (exampleKwargs q1 q2 q3 q4) with
           | .error e => .error e
           | .ok examples =>
             .ok [("examples", .list ((examples.map formatExample).map PyVal.dict)),
                  ("total_count", .int ((examples.map formatExample).length : Int))]) := rfl
    rw [key, he]
    simp [tryWrap]
  · intro dob hmod
    rw [show dictGet (formatDataset dob) "modified_at" =
          some (isoField dob.modified_at) from rfl, hmod]
    rfl
  · intro eob hmod
    rw [show dictGet (formatExample eob) "modified_at" =
          some (isoField eob.modified_at) from rfl, hmod]
    rfl

/-- Witness for C9 with one dataset and one example, each missing
`modified_at`, and the Python default arguments
(`None` filters, `limit=20`). -/
theorem C9_projection_defaults_witness :
    list_datasets_tool (fun _ => .ok [sampleDataset]) Option.none Option.none
        Option.none Option.none Option.none (some (.int 20)) =
      [("datasets", .list (([sampleDataset].map formatDataset).map PyVal.dict)),
       ("total_count", .int (([sampleDataset] : List DatasetObj).length : Int))] ∧
    list_examples_tool (fun _ => .ok [sampleExample]) Option.none Option.none
        Option.none Option.none =
      [("examples", .list (([sampleExample].map formatExample).map PyVal.dict)),
       ("total_count", .int (([sampleExample] : List ExampleObj).length : Int))] ∧
    (∀ dob : DatasetObj, dob.modified_at = Option.none →
      dictGet (formatDataset dob) "modified_at" = some PyVal.none) ∧
    (∀ eob : ExampleObj, eob.modified_at = Option.none →
      dictGet (formatExample eob) "modified_at" = some PyVal.none) :=
  C9_projection_defaults (fun _ => .ok [sampleDataset]) (fun _ => .ok [sampleExample])
    Option.none Option.none Option.none Option.none Option.none (some (.int 20))
    Option.none Option.none Option.none Option.none
    [sampleDataset] [sampleExample] rfl rfl

/-- C4 (code evaluated at the failing input): with two direct children of
run `r1`, one carrying a start time and one whose `start_time` attribute is
absent, the child dictionaries both contain a `start_time` key (`None` for
the absent one), so the sort key `x.get("start_time", "")` is `None` — not
the `""` default — and the sort raises `TypeError`; the caught exception
surfaces as a `child_runs_error` field instead of a sorted child list. -/
theorem C4_missing_start_time_sort :
    hasKey (fetch_run_tool (fun _ => .ok (some sampleRunObj))
      (fun _ => .ok [childWithStart, childNoStart]) (some "r1")) "child_runs_error" = true ∧
    dictGet (fetch_run_tool (fun _ => .ok (some sampleRunObj))
      (fun _ => .ok [childWithStart, childNoStart]) (some "r1")) "child_run_count" =
      some (.int 2) ∧
    dictGet (fetch_run_tool (fun _ => .ok (some sampleRunObj))
      (fun _ => .ok [childWithStart, childNoStart]) (some "r1")) "id" =
      some (.str "r1") ∧
    dictGet (childDict childNoStart) "start_time" = some PyVal.none :=
  ⟨rfl, rfl, rfl, rfl⟩

/-- C5 counterexample: the claim's own scenario (main fetch succeeds, the
child-run listing raises) where `child_runs`, `child_run_count` and
`child_runs_error` are exactly as claimed, yet the result DOES contain a
top-level `"error"` key — it always holds the run's own `error` attribute. -/
theorem C5_counterexample :
    hasKey (fetch_run_tool (fun _ => .ok (some sampleRunObj))
      (fun _ => .error "boom") (some "r1")) "error" = true ∧
    hasKey (fetch_run_tool (fun _ => .ok (some sampleRunObj))
      (fun _ => .error "boom") (some "r1")) "child_runs_error" = true ∧
    dictGet (fetch_run_tool (fun _ => .ok (some sampleRunObj))
      (fun _ => .error "boom") (some "r1")) "child_runs" = some (.list []) ∧
    dictGet (fetch_run_tool (fun _ => .ok (some sampleRunObj))
      (fun _ => .error "boom") (some "r1")) "child_run_count" = some (.int 0) :=
  ⟨rfl, rfl, rfl, rfl⟩

/-- C5 amended: when the main run fetch succeeds and the child-run listing
raises, the result is the full main-run record with a `child_runs_error`
field appended, `child_runs = []` and `child_run_count = 0`; the top-level
`"error"` key is present (as in every successful `fetch_run_tool` result)
and holds the run's own `error` attribute, not the child-listing failure. -/
theorem C5_amended (run : RunObj) (rid em : String)
    (h1 : rid ≠ "null") (h2 : rid ≠ "") :
    fetch_run_tool (fun _ => .ok (some run)) (fun _ => .error em) (some rid) =
      dictSet (dictSet (dictSet (mainRunInfo run)
          "child_runs_error" (.str ("Could not fetch child runs: " ++ em)))
          "child_runs" (.list []))
          "child_run_count" (.int 0) ∧
    dictGet (fetch_run_tool (fun _ => .ok (some run)) (fun _ => .error em) (some rid))
      "error" = some run.error := by
  have hcond : runIdMissing (some rid) = false := by
    simp [runIdMissing, h1, h2]
  have key : fetch_run_tool (fun _ => .ok (some run)) (fun _ => .error em) (some rid) =
      if runIdMissing (some rid) then
        [("error", .str "Error: run_id must be provided.")]
      else
        dictSet (dictSet (dictSet (mainRunInfo run)
            "child_runs_error" (.str ("Could not fetch child runs: " ++ em)))
            "child_runs" (.list []))
            "child_run_count" (.int 0) := rfl
  have e1 : fetch_run_tool (fun _ => .ok (some run)) (fun _ => .error em) (some rid) =
      dictSet (dictSet (dictSet (mainRunInfo run)
          "child_runs_error" (.str ("Could not fetch child runs: " ++ em)))
          "child_runs" (.list []))
          "child_run_count" (.int 0) := by
    rw [key, hcond]
    simp
  refine ⟨e1, ?_⟩
  rw [e1,
      dictGet_dictSet_ne _ _ _ _ (by decide),
      dictGet_dictSet_ne _ _ _ _ (by decide),
      dictGet_dictSet_ne _ _ _ _ (by decide)]
  rfl

/-- Witness for C5 amended at a concrete run and failure text. -/
theorem C5_amended_witness :
    fetch_run_tool (fun _ => .ok (some sampleRunObj)) (fun _ => .error "boom") (some "r1") =
      dictSet (dictSet (dictSet (mainRunInfo sampleRunObj)
          "child_runs_error" (.str ("Could not fetch child runs: " ++ "boom")))
          "child_runs" (.list []))
          "child_run_count" (.int 0) ∧
    dictGet (fetch_run_tool (fun _ => .ok (some sampleRunObj))
      (fun _ => .error "boom") (some "r1")) "error" = some sampleRunObj.error :=
  C5_amended sampleRunObj "r1" "boom" (by decide) (by decide)

/-- C6: the child-run selection keeps exactly the listed runs whose
parent-run identifier, compared as text, equals the requested run
identifier (a truthy `parent_run_id` is required, so an absent or empty
parent is excluded), and for a listing with parent identifiers
`[R, R, X, absent]` relative to requested run `R` exactly the two
`R`-parented children are returned, in ascending start-time order —
whether the listing presents the two `R`-children in ascending order
(`[c1, c2, ...]`) or in descending order (`[c2, c1, ...]`, where the sort
must reorder them). -/
theorem C6_child_filter
    (run : RunObj) (R X s1 s2 : String) (c1 c2 c3 c4 : ChildRun)
    (hR1 : R ≠ "null") (hR2 : R ≠ "")
    (hc1p : c1.parent_run_id = some (.str R))
    (hc2p : c2.parent_run_id = some (.str R))
    (hc3p : c3.parent_run_id = some (.str X)) (hX : X ≠ R)
    (hc4p : c4.parent_run_id = Option.none)
    (hc1s : c1.start_time = some (.str s1))
    (hc2s : c2.start_time = some (.str s2))
    (hs : pyStrLt s1 s2 = true) :
    (∀ c : ChildRun, childMatches R c = true ↔
      ∃ p, c.parent_run_id = some p ∧ pyTruthy p = true ∧ pyStr p = R) ∧
    dictGet (fetch_run_tool (fun _ => .ok (some run))
        (fun _ => .ok [c1, c2, c3, c4]) (some R)) "child_runs" =
      some (.list [.dict (childDict c1), .dict (childDict c2)]) ∧
    dictGet (fetch_run_tool (fun _ => .ok (some run))
        (fun _ => .ok [c2, c1, c3, c4]) (some R)) "child_runs" =
      some (.list [.dict (childDict c1), .dict (childDict c2)]) ∧
    dictGet (fetch_run_tool (fun _ => .ok (some run))
        (fun _ => .ok [c1, c2, c3, c4]) (some R)) "child_run_count" =
      some (.int 2) ∧
    dictGet (fetch_run_tool (fun _ => .ok (some run))
        (fun _ => .ok [c2, c1, c3, c4]) (some R)) "child_run_count" =
      some (.int 2) ∧
    hasKey (fetch_run_tool (fun _ => .ok (some run))
        (fun _ => .ok [c1, c2, c3, c4]) (some R)) "child_runs_error" = false ∧
    hasKey (fetch_run_tool (fun _ => .ok (some run))
        (fun _ => .ok [c2, c1, c3, c4]) (some R)) "child_runs_error" = false := by
  have hcond : runIdMissing (some R) = false := by
    simp [runIdMissing, hR1, hR2]
  have hfil1 : childMatches R c1 = true := by
    simp [childMatches, hc1p, pyTruthy, pyStr, hR2]
  have hfil2 : childMatches R c2 = true := by
    simp [childMatches, hc2p, pyTruthy, pyStr, hR2]
  have hfil3 : childMatches R c3 = false := by
    simp [childMatches, hc3p, pyTruthy, pyStr, hX]
  have hfil4 : childMatches R c4 = false := by
    simp [childMatches, hc4p]
  have hfilter : List.filter (childMatches R) [c1, c2, c3, c4] = [c1, c2] := by
    simp [List.filter, hfil1, hfil2, hfil3, hfil4]
  have hfilterSwap : List.filter (childMatches R) [c2, c1, c3, c4] = [c2, c1] := by
    simp [List.filter, hfil1, hfil2, hfil3, hfil4]
  have k1 : childSortKey (childDict c1) = .str s1 := by
    rw [show childSortKey (childDict c1) = optStrField c1.start_time from rfl, hc1s]
    rfl
  have k2 : childSortKey (childDict c2) = .str s2 := by
    rw [show childSortKey (childDict c2) = optStrField c2.start_time from rfl, hc2s]
    rfl
  have hnotlt : pyStrLt s2 s1 = false := pyStrLt_asymm s1 s2 hs
  have hsorted : pySortByStartTime [childDict c1, childDict c2] =
      .ok [childDict c1, childDict c2] := by
    simp [pySortByStartTime, k1, k2, isStrVal, insertAsc, keyStr, hnotlt]
  have hsortedSwap : pySortByStartTime [childDict c2, childDict c1] =
      .ok [childDict c1, childDict c2] := by
    simp [pySortByStartTime, k1, k2, isStrVal, insertAsc, keyStr, hs]
  have hphase : childPhase (.ok [c1, c2, c3, c4]) R =
      ([childDict c1, childDict c2], Option.none) := by
    simp only [childPhase, hfilter, List.map_cons, List.map_nil, hsorted]
  have hphaseSwap : childPhase (.ok [c2, c1, c3, c4]) R =
      ([childDict c1, childDict c2], Option.none) := by
    simp only [childPhase, hfilterSwap, List.map_cons, List.map_nil, hsortedSwap]
  have key : fetch_run_tool (fun _ => .ok (some run))
      (fun _ => .ok [c1, c2, c3, c4]) (some R) =
      if runIdMissing (some R) then
        [("error", .str "Error: run_id must be provided.")]
      else
        (let phase := childPhase (.ok [c1, c2, c3, c4]) R
         let info := match phase.2 with
                     | some e => dictSet (mainRunInfo run) "child_runs_error"
                                   (.str ("Could not fetch child runs: " ++ e))
                     | Option.none => mainRunInfo run
         dictSet (dictSet info "child_runs" (.list (phase.1.map PyVal.dict)))
           "child_run_count" (.int phase.1.length)) := rfl
  have keySwap : fetch_run_tool (fun _ => .ok (some run))
      (fun _ => .ok [c2, c1, c3, c4]) (some R) =
      if runIdMissing (some R) then
        [("error", .str "Error: run_id must be provided.")]
      else
        (let phase := childPhase (.ok [c2, c1, c3, c4]) R
         let info := match phase.2 with
                     | some e => dictSet (mainRunInfo run) "child_runs_error"
                                   (.str ("Could not fetch child runs: " ++ e))
                     | Option.none => mainRunInfo run
         dictSet (dictSet info "child_runs" (.list (phase.1.map PyVal.dict)))
           "child_run_count" (.int phase.1.length)) := rfl
  have htool : fetch_run_tool (fun _ => .ok (some run))
      (fun _ => .ok [c1, c2, c3, c4]) (some R) =
      dictSet (dictSet (mainRunInfo run) "child_runs"
        (.list [.dict (childDict c1), .dict (childDict c2)]))
        "child_run_count" (.int 2) := by
    rw [key, hcond]
    simp only [Bool.false_eq_true, if_false, hphase]
    rfl
  have htoolSwap : fetch_run_tool (fun _ => .ok (some run))
      (fun _ => .ok [c2, c1, c3, c4]) (some R) =
      dictSet (dictSet (mainRunInfo run) "child_runs"
        (.list [.dict (childDict c1), .dict (childDict c2)]))
        "child_run_count" (.int 2) := by
    rw [keySwap, hcond]
    simp only [Bool.false_eq_true, if_false, hphaseSwap]
    rfl
  refine ⟨?_, ?_, ?_, ?_, ?_, ?_, ?_⟩
  · intro c
    cases hp : c.parent_run_id with
    | none => simp [childMatches, hp]
    | some p => simp [childMatches, hp, Bool.and_eq_true, beq_iff_eq]
  · rw [htool, dictGet_dictSet_ne _ _ _ _ (by decide), dictGet_dictSet_self]
  · rw [htoolSwap, dictGet_dictSet_ne _ _ _ _ (by decide), dictGet_dictSet_self]
  · rw [htool, dictGet_dictSet_self]
  · rw [htoolSwap, dictGet_dictSet_self]
  · rw [htool, hasKey_dictSet, hasKey_dictSet]
    rfl
  · rw [htoolSwap, hasKey_dictSet, hasKey_dictSet]
    rfl

/-- Witness for C6 with four concrete children: two parented by `r1` (start
times 02:00 and 03:00), one parented by another run, one with no parent —
both for the ascending listing and for the descending listing, where the
later-starting `childLater` is listed first and the sort must move
`childWithStart` ahead of it. -/
theorem C6_child_filter_witness :
    (∀ c : ChildRun, childMatches "r1" c = true ↔
      ∃ p, c.parent_run_id = some p ∧ pyTruthy p = true ∧ pyStr p = "r1") ∧
    dictGet (fetch_run_tool (fun _ => .ok (some sampleRunObj))
        (fun _ => .ok [childWithStart, childLater, childOtherParent, childNoParent])
        (some "r1")) "child_runs" =
      some (.list [.dict (childDict childWithStart), .dict (childDict childLater)]) ∧
    dictGet (fetch_run_tool (fun _ => .ok (some sampleRunObj))
        (fun _ => .ok [childLater, childWithStart, childOtherParent, childNoParent])
        (some "r1")) "child_runs" =
      some (.list [.dict (childDict childWithStart), .dict (childDict childLater)]) ∧
    dictGet (fetch_run_tool (fun _ => .ok (some sampleRunObj))
        (fun _ => .ok [childWithStart, childLater, childOtherParent, childNoParent])
        (some "r1")) "child_run_count" =
      some (.int 2) ∧
    dictGet (fetch_run_tool (fun _ => .ok (some sampleRunObj))
        (fun _ => .ok [childLater, childWithStart, childOtherParent, childNoParent])
        (some "r1")) "child_run_count" =
      some (.int 2) ∧
    hasKey (fetch_run_tool (fun _ => .ok (some sampleRunObj))
        (fun _ => .ok [childWithStart, childLater, childOtherParent, childNoParent])
        (some "r1")) "child_runs_error" = false ∧
    hasKey (fetch_run_tool (fun _ => .ok (some sampleRunObj))
        (fun _ => .ok [childLater, childWithStart, childOtherParent, childNoParent])
        (some "r1")) "child_runs_error" = false :=
  C6_child_filter sampleRunObj "r1" "rX" "2024-01-02T00:00:00" "2024-01-03T00:00:00"
    childWithStart childLater childOtherParent childNoParent
    (by decide) (by decide) rfl rfl rfl (by decide) rfl rfl rfl rfl

theorem hasKey_error_assembled (run : RunObj) (phase : List PyDict × Option String) :
    hasKey (dictSet (dictSet (match phase.2 with
        | some e => dictSet (mainRunInfo run) "child_runs_error"
                      (.str ("Could not fetch child runs: " ++ e))
        | Option.none => mainRunInfo run)
      "child_runs" (.list (phase.1.map PyVal.dict)))
      "child_run_count" (.int phase.1.length)) "error" = true := by
  obtain ⟨cs, errOpt⟩ := phase
  cases errOpt <;> simp only [hasKey_dictSet, hasKey_mainRunInfo_error] <;> rfl

/-- C1 counterexample: a `fetch_trace_tool` call whose client succeeds and
whose run has no error of its own — the operation did not fail (the result
carries the run projection, e.g. its `trace_id`) — yet the returned mapping
contains an `"error"` key (holding the run's own `error` attribute, `None`
here). -/
theorem C1_counterexample :
    hasKey (fetch_trace_tool (fun _ _ => .ok [sampleTraceRun]) (some "proj") Option.none)
      "error" = true ∧
    dictGet (fetch_trace_tool (fun _ _ => .ok [sampleTraceRun]) (some "proj") Option.none)
      "trace_id" = some (.str "run-1") ∧
    dictGet (fetch_trace_tool (fun _ _ => .ok [sampleTraceRun]) (some "proj") Option.none)
      "error" = some PyVal.none :=
  ⟨rfl, rfl, rfl⟩

/-- C1 amended: every tool-module function returns a plain mapping for every
input and client behavior; `list_datasets_tool` and `list_examples_tool`
carry an `"error"` key exactly when the client call raised,
`get_thread_history_tool` carries `"error"` exactly when it carries no
`"result"`, `get_project_runs_stats_tool` (for clients whose statistics
dictionaries contain no `"error"` key of their own) carries `"error"`
exactly when it carries no `"project_name"`, while `fetch_trace_tool` and
`fetch_run_tool` always carry an `"error"` key: on success it holds the
fetched run's own `error` attribute. -/
theorem C1_amended :
    (∀ (fd : PyDict → Except String (List DatasetObj))
       (p1 p2 p3 p4 p5 p6 : Option PyVal),
       hasKey (list_datasets_tool fd p1 p2 p3 p4 p5 p6) "error" =
         isExcError (fd (datasetKwargs p1 p2 p3 p4 p5 p6))) ∧
    (∀ (fe : PyDict → Except String (List ExampleObj)) (q1 q2 q3 q4 : Option PyVal),
       hasKey (list_examples_tool fe q1 q2 q3 q4) "error" =
         isExcError (fe (exampleKwargs q1 q2 q3 q4))) ∧
    (∀ (listing : Except String (List ThreadRun)) (tid pn : String),
       hasKey (get_thread_history_tool listing tid pn) "error" =
         !(hasKey (get_thread_history_tool listing tid pn) "result")) ∧
    (∀ (fs : Option (List String) → Option String → Except String PyDict)
       (pn tid : Option String),
       (∀ a b d, fs a b = .ok d → hasKey d "error" = false) →
       hasKey (get_project_runs_stats_tool fs pn tid) "project_name" =
         !(hasKey (get_project_runs_stats_tool fs pn tid) "error")) ∧
    (∀ (ft : Option String → Option (List String) → Except String (List TraceRun))
       (pn tid : Option String),
       hasKey (fetch_trace_tool ft pn tid) "error" = true) ∧
    (∀ (rr : String → Except String (Option RunObj))
       (lr : Option String → Except String (List ChildRun)) (rid : Option String),
       hasKey (fetch_run_tool rr lr rid) "error" = true) := by
  refine ⟨?_, ?_, ?_, ?_, ?_, ?_⟩
  · intro fd p1 p2 p3 p4 p5 p6
    unfold list_datasets_tool
    cases fd (datasetKwargs p1 p2 p3 p4 p5 p6) <;> rfl
  · intro fe q1 q2 q3 q4
    unfold list_examples_tool
    cases fe (exampleKwargs q1 q2 q3 q4) <;> rfl
  · intro listing tid pn
    unfold get_thread_history_tool threadBody
    cases listing with
    | error e => rfl
    | ok runs =>
      dsimp only
      repeat' first
      | rfl
      | split
  · intro fs pn tid hcl
    unfold get_project_runs_stats_tool
    cases hV : (!strTruthy (nullToNone pn) && !strTruthy (nullToNone tid)) with
    | true => simp only [hV]; rfl
    | false =>
      simp only [hV, Bool.false_eq_true, if_false]
      cases hN : nullToNone pn with
      | none => rfl
      | some p =>
        dsimp only
        split
        · rfl
        · rename_i stats heq
          have hde : hasKey stats "error" = false := hcl _ _ stats heq
          have hpop : hasKey (dictPop stats "run_facets") "error" = hasKey stats "error" :=
            hasKey_dictPop_ne _ _ _ (by decide)
          simp only [tryWrap, hasKey_dictSet, hpop, hde]
          rfl
  · intro ft pn tid
    unfold fetch_trace_tool
    cases hV : (!strTruthy (nullToNone pn) && !strTruthy (nullToNone tid)) with
    | true => simp only [hV]; rfl
    | false =>
      simp only [hV, Bool.false_eq_true, if_false]
      cases ft (truthyOrNone (nullToNone pn)) (singletonArg (nullToNone tid)) with
      | error e => rfl
      | ok runs =>
        cases runs with
        | nil => rfl
        | cons run rest => rfl
  · intro rr lr rid
    unfold fetch_run_tool
    cases hV : runIdMissing rid with
    | true => simp only [hV]; rfl
    | false =>
      simp only [hV, Bool.false_eq_true, if_false]
      cases rid with
      | none => rfl
      | some rid0 =>
        dsimp only
        cases rr rid0 with
        | error e => rfl
        | ok runOpt =>
          cases runOpt with
          | none => rfl
          | some run => exact hasKey_error_assembled run _

/-- Witness for C1 amended: the statistics conjunct applied to a concrete
client whose statistics dictionary has no `"error"` key. -/
theorem C1_amended_witness :
    hasKey (get_project_runs_stats_tool (fun _ _ => .ok [("run_count", PyVal.int 2)])
      (some "proj") Option.none) "project_name" =
    !(hasKey (get_project_runs_stats_tool (fun _ _ => .ok [("run_count", PyVal.int 2)])
      (some "proj") Option.none) "error") :=
  C1_amended.2.2.2.1 (fun _ _ => .ok [("run_count", PyVal.int 2)]) (some "proj") Option.none
    (fun a b d hd => by
      injection hd with h2
      rw [← h2]
      rfl)
